import Mathlib

/-!
Verification of the core logic of `src/src/MoonCodeApp.jsx` (the first
document in that file; later separator-delimited copies are UI variants of
the same code).  The pure fragments of the program are embedded as Lean
definitions:

* timestamps (`created_at`, `receive_at`, `new Date().toISOString()`,
  `new Date(x)` arithmetic) are modelled as `Nat` epoch values — ISO-8601
  strings produced by `toISOString` compare in the same order as the
  underlying instants;
* classifier probabilities are modelled as `ℚ` (the source uses JS numbers
  only for comparison against the literal threshold `0.75` and for
  `Math.round(p * 100)`, both exact on the decimal values at issue);
* the Supabase calls are modelled by their effect on a row: `insertMessage`
  builds the inserted row (server-assigned `id`/`created_at` are
  parameters), `unlockMessage` builds the updated row; gateway failures are
  an `Except` error channel;
* React state updates (`setMessages` ...) are modelled as explicit
  list-transforming functions on the held message collection.
-/

namespace MoonCode

/-- Model of JS `String.prototype.trim` (restricted to the ASCII whitespace
the app can meet), used at `viewerName?.trim()`, `userName.trim()`,
`messageText.trim()`. -/
def jsTrim (s : String) : String :=
  ⟨((s.data.dropWhile Char.isWhitespace).reverse.dropWhile Char.isWhitespace).reverse⟩

/-- Model of JS `String.prototype.toLowerCase` (ASCII range), used in
`verifyMoon`'s case-insensitive label match. -/
def jsToLower (s : String) : String := ⟨s.data.map Char.toLower⟩

/-- The object passed to `onVerifiedMoon` (MoonCodeApp.jsx line 318):
`{ dataUrl, confidence, verifiedAt }`. -/
structure CaptureRecord where
  dataUrl : String
  confidence : ℚ
  verifiedAt : Nat
  deriving DecidableEq

/-- A persisted `messages` row as read back from Supabase (columns used by
the app: lines 27-58, 61-79). -/
structure Row where
  id : Nat
  sender : String
  recipient : String
  body : String
  locked : Bool
  created_at : Nat
  receive_at : Option Nat
  send_photo : Option CaptureRecord
  receive_photo : Option CaptureRecord
  deriving DecidableEq

/-- The UI message produced by `mapRowToMessage` (lines 61-79). -/
structure Message where
  id : Nat
  «from» : String
  «to» : String
  body : String
  locked : Bool
  sentAt : Nat
  receiveAt : Option Nat
  sendPhoto : Option CaptureRecord
  receivePhoto : Option CaptureRecord
  archived : Bool
  rawSender : String
  rawRecipient : String
  deriving DecidableEq

/-- Line 62: `const viewer = viewerName?.trim() || "You";` (`none` models an
`undefined` viewer name; `||` takes the fallback on the empty string). -/
def normViewerName (viewerName : Option String) : String :=
  match viewerName with
  | none => "You"
  | some s => if jsTrim s = "" then "You" else jsTrim s

/-- Lines 61-79: map a DB row to the UI message for a given viewer. -/
def mapRowToMessage (row : Row) (viewerName : Option String) : Message :=
  let viewer := normViewerName viewerName
  let isSender := row.sender == viewer
  { id := row.id
    «from» := if isSender then "You" else row.sender
    «to» := if isSender then row.recipient else "You"
    body := row.body
    locked := row.locked
    sentAt := row.created_at
    receiveAt := row.receive_at
    sendPhoto := row.send_photo
    receivePhoto := row.receive_photo
    archived := row.receive_photo.isSome
    rawSender := row.sender
    rawRecipient := row.recipient }

/-- Error taxonomy of the spec (§7); the Supabase helpers propagate gateway
errors via `throw error`, modelled as the `Except` error channel. -/
inductive AppError where
  | invalidTransition
  | notFound
  | accessDenied
  | transport
  deriving DecidableEq

/-- Lines 27-42: the row created by `insertMessage` — the payload sets
`sender`, `recipient`, `body`, `locked: true`, `send_photo: sendPhoto ?? null`;
the server assigns `id` and `created_at`; the remaining columns are null. -/
def insertMessage (sender recipient body : String) (sendPhoto : Option CaptureRecord)
    (id created_at : Nat) : Row :=
  { id := id
    sender := sender
    recipient := recipient
    body := body
    locked := true
    created_at := created_at
    receive_at := none
    send_photo := sendPhoto
    receive_photo := none }

/-- Lines 44-58: `unlockMessage` updates the row with `locked: false`,
`receive_photo: receivePhoto ?? null`, `receive_at: now` — unconditionally:
the source has no state-based guard, so the success branch is always taken
(the error channel carries only gateway failures, never a transition
check). -/
def unlockMessage (row : Row) (receivePhoto : Option CaptureRecord) (now : Nat) :
    Except AppError Row :=
  .ok { row with
        locked := false
        receive_photo := receivePhoto
        receive_at := some now }

/-- Line 1051: `handleOpenMessage` routes a message to the unlock-capture
screen iff `msg.locked || !msg.receivePhoto` — the program's only
unlockability check. -/
def canUnlock (m : Message) : Bool := m.locked || !m.receivePhoto.isSome

/-- One entry of the classifier's prediction list (`{ className, probability }`). -/
structure Prediction where
  className : String
  probability : ℚ
  deriving DecidableEq

/-- Line 100: `const MOON_CLASS_NAME = "Moon";` -/
def MOON_CLASS_NAME : String := "Moon"

/-- Line 103: `const MOON_THRESHOLD = 0.75;` -/
def MOON_THRESHOLD : ℚ := 75 / 100

/-- Result of the `verifyMoon` handler, as observable by the caller: either
`onVerifiedMoon` is invoked with a capture record, or the rejection text
`"Not enough moon (p%). ..."` is shown carrying the rounded percentage. -/
inductive VerifyOutcome where
  | verified (record : CaptureRecord)
  | rejected (pct : ℤ)
  deriving DecidableEq

/-- Lines 309-312: `predictions.find(p => p.className.toLowerCase() ===
MOON_CLASS_NAME.toLowerCase())`, probability defaulting to `0` when the
target label is absent. -/
def moonProbability (predictions : List Prediction) : ℚ :=
  match predictions.find? (fun p => jsToLower p.className == jsToLower MOON_CLASS_NAME) with
  | some p => p.probability
  | none => 0

/-- Lines 308-327: threshold gate of `verifyMoon`.  `Math.round` agrees with
Mathlib's `round` (half rounds up) on the values at issue. -/
def verifyMoon (predictions : List Prediction) (capturedDataUrl : String) (now : Nat) :
    VerifyOutcome :=
  let moonProb := moonProbability predictions
  if MOON_THRESHOLD ≤ moonProb then
    .verified { dataUrl := capturedDataUrl, confidence := moonProb, verifiedAt := now }
  else
    .rejected (round (moonProb * 100))

/-- Lines 990-996: the `setMessages` merge of the change-feed handler — if a
message with the incoming id is already held, replace it in place, else
prepend. -/
def mergeMessage (prev : List Message) (mapped : Message) : List Message :=
  match prev.findIdx? (fun m => m.id == mapped.id) with
  | none => mapped :: prev
  | some idx => prev.set idx mapped

/-- Lines 982-997: the whole change-feed handler — `payload.new` may be
absent (`if (!row) return`), rows not involving the viewer are discarded,
matching rows are mapped and merged. -/
def handleChangeEvent (prev : List Message) (payloadNew : Option Row)
    (viewerName : String) : List Message :=
  match payloadNew with
  | none => prev
  | some row =>
    if row.sender != viewerName && row.recipient != viewerName then prev
    else mergeMessage prev (mapRowToMessage row (some viewerName))

/-- Ordering used by `sortedMessages` (line 957): `a` precedes `b` when
`b.sentAt ≤ a.sentAt`, i.e. `sentAt` descending. -/
def sentAtDesc (a b : Message) : Prop := b.sentAt ≤ a.sentAt

instance : DecidableRel sentAtDesc := fun a b => Nat.decLe b.sentAt a.sentAt

instance : IsTotal Message sentAtDesc := ⟨fun a b => Nat.le_total b.sentAt a.sentAt⟩

instance : IsTrans Message sentAtDesc :=
  ⟨fun _ _ _ hab hbc => Nat.le_trans hbc hab⟩

/-- Lines 956-959: `[...messages].sort((a, b) => new Date(b.sentAt) - new
Date(a.sentAt))`, recomputed from the current collection on every read.
`Array.prototype.sort` is a stable sort; `insertionSort` is its stable
model. -/
def sortedMessages (messages : List Message) : List Message :=
  messages.insertionSort sentAtDesc

/-- Lines 970-975: effect of the initial load on the held collection — on
success the collection is replaced wholesale by the mapped rows, on failure
(`.catch` logs the error) it is left untouched. -/
def applyLoadResult (prev : List Message) (viewerName : String)
    (result : Except AppError (List Row)) : List Message :=
  match result with
  | .ok rows => rows.map (fun r => mapRowToMessage r (some viewerName))
  | .error _ => prev

/-- Line 1028's fallback body text. -/
def DEFAULT_BODY : String := "A message carried by moonlight."

/-- Line 1028: `body: messageText.trim() || "A message carried by
moonlight."` — JS `||` takes the fallback exactly when the trimmed text is
the empty string. -/
def composeBody (messageText : String) : String :=
  if jsTrim messageText = "" then DEFAULT_BODY else jsTrim messageText

/-- The §3 invariant `receiveAt != null ⇔ receivePhoto != null`, on a UI
message. -/
def msgInvariant (m : Message) : Prop := m.receiveAt.isSome = m.receivePhoto.isSome

/-- Concrete rows and captures used as witnesses below. -/
def sampleCapture : CaptureRecord :=
  { dataUrl := "data:image/jpeg;base64,AAA", confidence := 9 / 10, verifiedAt := 40 }

/-- A second capture, for the double-unlock counterexample. -/
def sampleCapture2 : CaptureRecord :=
  { dataUrl := "data:image/jpeg;base64,BBB", confidence := 95 / 100, verifiedAt := 50 }

/-- A freshly inserted, still locked row. -/
def sampleLockedRow : Row :=
  { id := 1, sender := "Alice", recipient := "Bob", body := "hello"
    locked := true, created_at := 10, receive_at := none
    send_photo := none, receive_photo := none }

/-- A row that has already been unlocked once. -/
def sampleUnlockedRow : Row :=
  { id := 2, sender := "Alice", recipient := "Bob", body := "secret"
    locked := false, created_at := 10, receive_at := some 20
    send_photo := none, receive_photo := some sampleCapture }

/-- C5: for every message produced by mapping a persisted row, `archived` is
true iff `receivePhoto` is non-null (line 75: `archived: !!row.receive_photo`). -/
theorem archived_iff_receivePhoto (row : Row) (viewerName : Option String) :
    (mapRowToMessage row viewerName).archived = true ↔
      (mapRowToMessage row viewerName).receivePhoto ≠ none := by
  cases h : row.receive_photo <;> simp [mapRowToMessage, h]

/-- C7: the read `sortedMessages` returns all held messages (a permutation
of the collection, whatever order loads, sends and merges produced it),
sorted by `sentAt` descending; being a pure function of the current
collection, it is recomputed on every read. -/
theorem visible_sorted_desc (messages : List Message) :
    List.Perm (sortedMessages messages) messages ∧
      List.Pairwise (fun a b => b.sentAt ≤ a.sentAt) (sortedMessages messages) :=
  ⟨List.perm_insertionSort sentAtDesc messages,
    List.sorted_insertionSort sentAtDesc messages⟩

/-- C8: a failed initial load (the fetch rejected with a transport error)
leaves the held collection exactly in its prior state, while a successful
load replaces it wholesale by the mapped rows. -/
theorem load_failure_keeps_prior_state (prev : List Message) (viewerName : String)
    (e : AppError) :
    applyLoadResult prev viewerName (.error e) = prev ∧
      ∀ rows, applyLoadResult prev viewerName (.ok rows) =
        rows.map (fun r => mapRowToMessage r (some viewerName)) :=
  ⟨rfl, fun _ => rfl⟩

/-- C9: if the composed body text is empty or whitespace-only, the persisted
body is the default string, and no insert ever carries an empty body. -/
theorem send_body_never_empty (messageText : String) :
    (jsTrim messageText = "" → composeBody messageText = DEFAULT_BODY) ∧
      composeBody messageText ≠ "" ∧
      ∀ (sender recipient : String) (sendPhoto : Option CaptureRecord) (id created_at : Nat),
        (insertMessage sender recipient (composeBody messageText) sendPhoto id created_at).body ≠ "" := by
  by_cases h : jsTrim messageText = ""
  · refine ⟨fun _ => by simp [composeBody, h], ?_, fun _ _ _ _ _ => ?_⟩ <;>
      simp [composeBody, h, insertMessage, DEFAULT_BODY]
  · refine ⟨fun hc => absurd hc h, ?_, fun _ _ _ _ _ => ?_⟩ <;>
      simp [composeBody, h, insertMessage]

/-- C9 witness: concrete blank and non-blank bodies. -/
theorem send_body_never_empty_witness :
    composeBody "   " = DEFAULT_BODY ∧ composeBody "" = DEFAULT_BODY ∧
      composeBody " hi " ≠ "" :=
  ⟨(send_body_never_empty "   ").1 (by decide),
    (send_body_never_empty "").1 (by decide),
    (send_body_never_empty " hi ").2.1⟩

/-- A concrete `{sender:"Alice", recipient:"Bob"}` row, used by the viewer
projection claims. -/
def sampleAliceBobRow : Row :=
  { id := 7, sender := "Alice", recipient := "Bob", body := "b"
    locked := true, created_at := 5, receive_at := none
    send_photo := none, receive_photo := none }

/-- C4: for a canonical viewer identity (trimmed, non-empty — the form every
identity takes in this app), the projection satisfies `from = "You"` iff the
viewer is the sender, else `from = sender`, and symmetrically for `to`; in
particular viewer "Alice" of an Alice→Bob message sees `from="You",
to="Bob"` and viewer "Bob" sees `from="Alice", to="You"`. -/
theorem mapRowToMessage_viewer_projection (row : Row) (viewer : String)
    (ht : jsTrim viewer = viewer) (hne : viewer ≠ "") :
    ((mapRowToMessage row (some viewer)).«from» =
        if row.sender = viewer then "You" else row.sender) ∧
      ((mapRowToMessage row (some viewer)).«to» =
        if row.sender = viewer then row.recipient else "You") ∧
      (mapRowToMessage sampleAliceBobRow (some "Alice")).«from» = "You" ∧
      (mapRowToMessage sampleAliceBobRow (some "Alice")).«to» = "Bob" ∧
      (mapRowToMessage sampleAliceBobRow (some "Bob")).«from» = "Alice" ∧
      (mapRowToMessage sampleAliceBobRow (some "Bob")).«to» = "You" := by
  have hnorm : normViewerName (some viewer) = viewer := by
    simp [normViewerName, ht, hne]
  refine ⟨?_, ?_, by decide, by decide, by decide, by decide⟩ <;>
    by_cases hs : row.sender = viewer <;>
      simp [mapRowToMessage, hnorm, hs]

/-- C4 witness: the projection applied to the concrete Alice→Bob row for
both viewers. -/
theorem mapRowToMessage_viewer_projection_witness :
    (mapRowToMessage sampleAliceBobRow (some "Alice")).«from» = "You" ∧
      (mapRowToMessage sampleAliceBobRow (some "Bob")).«to» = "You" :=
  ⟨(mapRowToMessage_viewer_projection sampleAliceBobRow "Alice"
      (by decide) (by decide)).2.2.1,
    (mapRowToMessage_viewer_projection sampleAliceBobRow "Bob"
      (by decide) (by decide)).2.2.2.2.2⟩

/-- C10: an undefined, empty or whitespace-only viewer name is projected as
if the viewer were the literal string "You": a row whose sender is literally
"You" is classified as sent by the viewer, every other row as received. -/
theorem blank_viewer_projects_as_you (row : Row) (viewerName : Option String)
    (h : viewerName = none ∨ ∃ s, viewerName = some s ∧ jsTrim s = "") :
    mapRowToMessage row viewerName = mapRowToMessage row (some "You") ∧
      (row.sender = "You" →
        (mapRowToMessage row viewerName).«from» = "You" ∧
          (mapRowToMessage row viewerName).«to» = row.recipient) ∧
      (row.sender ≠ "You" →
        (mapRowToMessage row viewerName).«from» = row.sender ∧
          (mapRowToMessage row viewerName).«to» = "You") := by
  have hnorm : normViewerName viewerName = "You" := by
    rcases h with h | ⟨s, hs, hblank⟩
    · simp [h, normViewerName]
    · simp [hs, normViewerName, hblank]
  have hyou : normViewerName (some "You") = "You" := by decide
  refine ⟨by simp [mapRowToMessage, hnorm, hyou], fun hs => ?_, fun hs => ?_⟩ <;>
    simp [mapRowToMessage, hnorm, hs]

/-- C10 witness: the whitespace-only viewer `"  "` of the Alice→Bob row sees
it as received from Alice. -/
theorem blank_viewer_projects_as_you_witness :
    mapRowToMessage sampleAliceBobRow (some "  ") =
        mapRowToMessage sampleAliceBobRow (some "You") ∧
      (mapRowToMessage sampleAliceBobRow (some "  ")).«from» = "Alice" :=
  have h := blank_viewer_projects_as_you sampleAliceBobRow (some "  ")
    (Or.inr ⟨"  ", rfl, by decide⟩)
  ⟨h.1, (h.2.2 (by decide)).1⟩

/-- C1 (amended): every message still in the `Locked` state (`locked=true`)
satisfies `canUnlock`; after an unlock that stores a capture record the
resulting message no longer satisfies `canUnlock`, so `handleOpenMessage`
stops routing it to the unlock flow — but a second `unlockMessage` call on
the already-unlocked row is not rejected: it succeeds again, overwriting
`receive_at` (no `InvalidTransitionError` guard exists in the source). -/
theorem canUnlock_unlock_cycle (r : Row) (v : Option String) (cap : CaptureRecord)
    (now now2 : Nat) (hL : r.locked = true) :
    canUnlock (mapRowToMessage r v) = true ∧
      ∀ r', unlockMessage r (some cap) now = .ok r' →
        canUnlock (mapRowToMessage r' v) = false ∧
          unlockMessage r' (some cap) now2 = .ok { r' with receive_at := some now2 } := by
  refine ⟨by simp [canUnlock, mapRowToMessage, hL], fun r' hr' => ?_⟩
  simp only [unlockMessage, Except.ok.injEq] at hr'
  subst hr'
  exact ⟨by simp [canUnlock, mapRowToMessage], rfl⟩

/-- C1 witness: the sample locked row unlocked with the sample capture. -/
theorem canUnlock_unlock_cycle_witness :
    canUnlock (mapRowToMessage sampleLockedRow (some "Bob")) = true ∧
      canUnlock (mapRowToMessage
        { sampleLockedRow with
          locked := false, receive_photo := some sampleCapture, receive_at := some 20 }
        (some "Bob")) = false :=
  have h := canUnlock_unlock_cycle sampleLockedRow (some "Bob") sampleCapture 20 30 rfl
  ⟨h.1, (h.2 _ rfl).1⟩

/-- C1 counterexample: a second unlock of an already-unlocked row does not
fail with `InvalidTransitionError` — the update succeeds and rewrites
`receive_photo` and `receive_at`. -/
theorem unlockMessage_no_double_unlock_guard :
    unlockMessage sampleUnlockedRow (some sampleCapture2) 60 ≠
        Except.error AppError.invalidTransition ∧
      unlockMessage sampleUnlockedRow (some sampleCapture2) 60 =
        .ok { sampleUnlockedRow with
              locked := false, receive_photo := some sampleCapture2, receive_at := some 60 } :=
  ⟨by simp [unlockMessage], rfl⟩

/-- Replacing the found element by one that still satisfies the predicate
leaves the found index unchanged. -/
theorem findIdx?_set_self (p : Message → Bool) (a : Message) (ha : p a = true) :
    ∀ (l : List Message) (i : Nat), l.findIdx? p = some i →
      (l.set i a).findIdx? p = some i := by
  intro l
  induction l with
  | nil => intro i h; simp at h
  | cons x xs ih =>
    intro i h
    rw [List.findIdx?_cons] at h
    by_cases hx : p x
    · rw [if_pos hx] at h
      cases h
      simp [List.set_cons_zero, List.findIdx?_cons, ha]
    · rw [if_neg hx, List.findIdx?_succ] at h
      cases hj : xs.findIdx? p with
      | none => rw [hj] at h; simp at h
      | some j =>
        rw [hj] at h
        simp only [Option.map_some'] at h
        cases h
        rw [List.set_cons_succ, List.findIdx?_cons, if_neg hx, List.findIdx?_succ,
          ih j hj]
        rfl

/-- Merging the same mapped message twice is the same as merging it once. -/
theorem mergeMessage_idem (prev : List Message) (mapped : Message) :
    mergeMessage (mergeMessage prev mapped) mapped = mergeMessage prev mapped := by
  cases h : prev.findIdx? (fun m => m.id == mapped.id) with
  | none =>
    have h1 : mergeMessage prev mapped = mapped :: prev := by
      simp [mergeMessage, h]
    rw [h1]
    simp [mergeMessage, List.findIdx?_cons]
  | some i =>
    have h1 : mergeMessage prev mapped = prev.set i mapped := by
      simp [mergeMessage, h]
    rw [h1]
    have h2 := findIdx?_set_self (fun m => m.id == mapped.id) mapped (by simp) prev i h
    simp [mergeMessage, h2, List.set_set]

/-- C6: the subscribe merge is idempotent — replaying the same change-feed
event twice yields the same collection as applying it once, and hence the
same sorted visible output. -/
theorem subscribe_merge_idempotent (prev : List Message) (payloadNew : Option Row)
    (viewerName : String) :
    handleChangeEvent (handleChangeEvent prev payloadNew viewerName) payloadNew viewerName =
        handleChangeEvent prev payloadNew viewerName ∧
      sortedMessages
          (handleChangeEvent (handleChangeEvent prev payloadNew viewerName) payloadNew viewerName) =
        sortedMessages (handleChangeEvent prev payloadNew viewerName) := by
  have h : handleChangeEvent (handleChangeEvent prev payloadNew viewerName) payloadNew viewerName =
      handleChangeEvent prev payloadNew viewerName := by
    cases payloadNew with
    | none => rfl
    | some row =>
      by_cases hc : (row.sender != viewerName && row.recipient != viewerName) = true
      · simp [handleChangeEvent, hc]
      · simp only [handleChangeEvent, if_neg hc]
        exact mergeMessage_idem prev (mapRowToMessage row (some viewerName))
  exact ⟨h, by rw [h]⟩

/-- C3: the §3 invariant `receiveAt ≠ null ⇔ receivePhoto ≠ null` holds for
every row produced by `insertMessage` (both null), for every row produced by
`unlockMessage` with a capture record (both set, as at its only call site),
is preserved by the row→message mapping, and is preserved by the subscribe
merge. -/
theorem receiveAt_iff_receivePhoto :
    (∀ (sender recipient body : String) (sendPhoto : Option CaptureRecord)
        (id created_at : Nat),
        (insertMessage sender recipient body sendPhoto id created_at).receive_at.isSome =
          (insertMessage sender recipient body sendPhoto id created_at).receive_photo.isSome) ∧
      (∀ (r : Row) (cap : CaptureRecord) (now : Nat) (r' : Row),
        unlockMessage r (some cap) now = .ok r' →
          r'.receive_at.isSome = r'.receive_photo.isSome) ∧
      (∀ (row : Row) (viewerName : Option String),
        row.receive_at.isSome = row.receive_photo.isSome →
          msgInvariant (mapRowToMessage row viewerName)) ∧
      (∀ (prev : List Message) (mapped : Message),
        (∀ m ∈ prev, msgInvariant m) → msgInvariant mapped →
          ∀ m ∈ mergeMessage prev mapped, msgInvariant m) := by
  refine ⟨fun _ _ _ _ _ _ => rfl, fun r cap now r' h => ?_, fun row v h => ?_,
    fun prev mapped hprev hmap m hm => ?_⟩
  · simp only [unlockMessage, Except.ok.injEq] at h
    subst h
    rfl
  · simpa [msgInvariant, mapRowToMessage] using h
  · unfold mergeMessage at hm
    cases h : prev.findIdx? (fun m => m.id == mapped.id) with
    | none =>
      rw [h] at hm
      rcases List.mem_cons.mp hm with h1 | h1
      · exact h1 ▸ hmap
      · exact hprev m h1
    | some i =>
      rw [h] at hm
      rcases List.mem_or_eq_of_mem_set hm with h1 | h1
      · exact hprev m h1
      · exact h1 ▸ hmap

/-- C3 witness: the invariant evaluated on concrete rows and a concrete
merge. -/
theorem receiveAt_iff_receivePhoto_witness :
    ((insertMessage "Alice" "Bob" "hi" none 3 11).receive_at.isSome =
        (insertMessage "Alice" "Bob" "hi" none 3 11).receive_photo.isSome) ∧
      msgInvariant (mapRowToMessage sampleUnlockedRow (some "Bob")) ∧
      msgInvariant (mapRowToMessage sampleLockedRow none) :=
  ⟨receiveAt_iff_receivePhoto.1 "Alice" "Bob" "hi" none 3 11,
    receiveAt_iff_receivePhoto.2.2.1 sampleUnlockedRow (some "Bob") (by decide),
    receiveAt_iff_receivePhoto.2.2.2 []
      (mapRowToMessage sampleLockedRow none) (by simp) rfl
      (mapRowToMessage sampleLockedRow none) (by simp [mergeMessage])⟩

/-- C2: `verifyMoon` takes the probability of the prediction whose label
matches "Moon" case-insensitively (0 if absent), verifies with confidence
equal to that probability exactly when it is ≥ 0.75 (inclusive), and
otherwise rejects carrying the rounded observed percentage; in particular
probability 0.80 verifies and label "moon" with probability 0.74 rejects. -/
theorem verifyMoon_threshold_gate (predictions : List Prediction) (img : String)
    (now : Nat) :
    (verifyMoon predictions img now =
        .verified { dataUrl := img, confidence := moonProbability predictions,
                    verifiedAt := now } ↔
      MOON_THRESHOLD ≤ moonProbability predictions) ∧
      (verifyMoon predictions img now =
          .rejected (round (moonProbability predictions * 100)) ↔
        moonProbability predictions < MOON_THRESHOLD) ∧
      (∀ q : ℚ, moonProbability [⟨"moon", q⟩] = q) ∧
      (∀ q : ℚ, moonProbability [⟨"nothing", q⟩] = 0) ∧
      verifyMoon [⟨"Moon", 80 / 100⟩] img now =
        .verified { dataUrl := img, confidence := 80 / 100, verifiedAt := now } ∧
      verifyMoon [⟨"moon", 74 / 100⟩] img now = .rejected 74 := by
  have hmoon : (jsToLower "moon" == jsToLower MOON_CLASS_NAME) = true := by decide
  have hMoon : (jsToLower "Moon" == jsToLower MOON_CLASS_NAME) = true := by decide
  have hnothing : (jsToLower "nothing" == jsToLower MOON_CLASS_NAME) = false := by decide
  have hp80 : moonProbability [⟨"Moon", 80 / 100⟩] = 80 / 100 := by
    simp [moonProbability, List.find?, hMoon]
  have hp74 : moonProbability [⟨"moon", 74 / 100⟩] = 74 / 100 := by
    simp [moonProbability, List.find?, hmoon]
  refine ⟨?_, ?_, fun q => by simp [moonProbability, List.find?, hmoon],
    fun q => by simp [moonProbability, List.find?, hnothing], ?_, ?_⟩
  · by_cases h : MOON_THRESHOLD ≤ moonProbability predictions <;>
      simp [verifyMoon, h]
  · rw [← not_le]
    by_cases h : MOON_THRESHOLD ≤ moonProbability predictions <;>
      simp [verifyMoon, h]
  · rw [verifyMoon, hp80, if_pos (by norm_num [MOON_THRESHOLD])]
  · rw [verifyMoon, hp74, if_neg (by norm_num [MOON_THRESHOLD])]
    norm_num [round_eq]

end MoonCode
